import Mathlib

/-!
Shallow embedding of `custom_components/parcelsapp/coordinator.py`
(the Parcels App Home Assistant integration coordinator).

JSON values decoded by `json.loads` are modelled by `PyVal`; Python `None`
is `PyVal.none`. Association lists model Python dicts (inputs are built
with distinct keys, matching decoded JSON). Operations that can raise a
Python exception return `Except String _`, the error string naming the
exception class. Wall-clock instants (`datetime.now()`, stored
timestamps) are modelled as integer seconds; `timedelta(minutes=30)` is
1800 seconds.
-/

/-- A Python value as produced by `json.loads` (plus `none` for Python `None`). -/
inductive PyVal where
  | none
  | bool (b : Bool)
  | int (n : Int)
  | str (s : String)
  | list (xs : List PyVal)
  | dict (fields : List (String × PyVal))
  deriving Repr

/-- First-match lookup in an association list (dict keys are distinct in inputs). -/
def dictLookup (fs : List (String × PyVal)) (k : String) : Option PyVal :=
  match fs.find? (fun p => p.1 == k) with
  | Option.some p => Option.some p.2
  | Option.none => Option.none

/-- Python truthiness (`bool(v)`): `None`, `False`, `0`, `""`, `[]`, `\x7b\x7d` are falsy. -/
def pyTruthy : PyVal → Bool
  | PyVal.none => false
  | PyVal.bool b => b
  | PyVal.int n => n != 0
  | PyVal.str s => s != ""
  | PyVal.list xs => !xs.isEmpty
  | PyVal.dict fs => !fs.isEmpty

/-- `v.get(k, default)`: dict lookup with default; raises `AttributeError` on a non-dict. -/
def pyGet (v : PyVal) (k : String) (default : PyVal) : Except String PyVal :=
  match v with
  | PyVal.dict fs => Except.ok ((dictLookup fs k).getD default)
  | _ => Except.error "AttributeError"

/-- Python `==` as exercised by the source: every comparison in the code is
against a string literal, so container-vs-container equality (never reached)
is not modelled; `bool`/`int` cross equality follows Python (`True == 1`). -/
def pyEq (a b : PyVal) : Bool :=
  match a, b with
  | PyVal.none, PyVal.none => true
  | PyVal.bool x, PyVal.bool y => x == y
  | PyVal.bool x, PyVal.int n => (if x then (1 : Int) else 0) == n
  | PyVal.int n, PyVal.bool x => n == (if x then (1 : Int) else 0)
  | PyVal.int x, PyVal.int y => x == y
  | PyVal.str x, PyVal.str y => x == y
  | _, _ => false

/-- `reversed(v)` materialised as a list: lists reverse; strings yield their
characters (as 1-char strings) in reverse; dicts yield their keys in reverse
insertion order; anything else raises `TypeError`. -/
def pyReversed (v : PyVal) : Except String (List PyVal) :=
  match v with
  | PyVal.list xs => Except.ok xs.reverse
  | PyVal.str s => Except.ok ((s.data.map (fun c => PyVal.str (String.mk [c]))).reverse)
  | PyVal.dict fs => Except.ok ((fs.map (fun p => PyVal.str p.1)).reverse)
  | _ => Except.error "TypeError"

/-- `iter(v)` materialised as a list: lists yield elements, strings their
characters, dicts their keys; anything else raises `TypeError`. -/
def pyIter (v : PyVal) : Except String (List PyVal) :=
  match v with
  | PyVal.list xs => Except.ok xs
  | PyVal.str s => Except.ok (s.data.map (fun c => PyVal.str (String.mk [c])))
  | PyVal.dict fs => Except.ok (fs.map (fun p => PyVal.str p.1))
  | _ => Except.error "TypeError"

/-- `len(v)` for sized values; raises `TypeError` otherwise. -/
def pyLen (v : PyVal) : Except String Nat :=
  match v with
  | PyVal.str s => Except.ok s.length
  | PyVal.list xs => Except.ok xs.length
  | PyVal.dict fs => Except.ok fs.length
  | _ => Except.error "TypeError"

/-- `v[i]` for a non-negative integer index `i`: list/string indexing with
`IndexError` out of range; a dict with string keys raises `KeyError`;
anything else raises `TypeError`. -/
def pyIndex (v : PyVal) (i : Nat) : Except String PyVal :=
  match v with
  | PyVal.list xs =>
    match xs.get? i with
    | Option.some x => Except.ok x
    | Option.none => Except.error "IndexError"
  | PyVal.str s =>
    match s.data.get? i with
    | Option.some c => Except.ok (PyVal.str (String.mk [c]))
    | Option.none => Except.error "IndexError"
  | PyVal.dict _ => Except.error "KeyError"
  | _ => Except.error "TypeError"

/-- `item in v`: dict membership checks keys, list membership checks elements,
string membership checks substrings; anything else raises `TypeError`. -/
def pyContains (v : PyVal) (item : PyVal) : Except String Bool :=
  match v with
  | PyVal.dict fs =>
    match item with
    | PyVal.str k => Except.ok (fs.any (fun p => p.1 == k))
    | _ => Except.ok false
  | PyVal.list xs => Except.ok (xs.any (fun x => pyEq item x))
  | PyVal.str s =>
    match item with
    | PyVal.str t => Except.ok (t.length == 0 || decide ((s.splitOn t).length ≥ 2))
    | _ => Except.error "TypeError"
  | _ => Except.error "TypeError"

/-- `str(v)` as used inside the coordinator's f-strings. -/
def pyStr : PyVal → String
  | PyVal.none => "None"
  | PyVal.bool true => "True"
  | PyVal.bool false => "False"
  | PyVal.int n => toString n
  | PyVal.str s => s
  | PyVal.list _ => "<list>"
  | PyVal.dict _ => "<dict>"

/-- The inner loop of `_get_location` (lines 85-88): scan the reversed
states, returning the first truthy `location`. -/
def get_location_loop : List PyVal → Except String PyVal
  | [] => Except.ok (PyVal.str "undefined")
  | s :: rest => do
    let loc2 ← pyGet s "location" PyVal.none
    if pyTruthy loc2 then Except.ok loc2 else get_location_loop rest

/-- `ParcelsAppCoordinator._get_location` (coordinator.py lines 71-90):
`lastState.location` if truthy, else the last state in `states` (list order)
with a truthy `location`, else the string `"undefined"`. -/
def get_location (shipment : PyVal) : Except String PyVal := do
  let lastStateRaw ← pyGet shipment "lastState" PyVal.none
  let last_state := if pyTruthy lastStateRaw then lastStateRaw else PyVal.dict []
  let loc ← pyGet last_state "location" PyVal.none
  if pyTruthy loc then
    Except.ok loc
  else do
    let statesRaw ← pyGet shipment "states" (PyVal.list [])
    let states ← pyReversed statesRaw
    get_location_loop states

example : get_location (PyVal.dict [("lastState", PyVal.dict [("location", PyVal.str "DE")])])
    = Except.ok (PyVal.str "DE") := rfl

example : get_location (PyVal.dict [("states", PyVal.list
    [PyVal.dict [("location", PyVal.str "B"), ("date", PyVal.str "2024-01-02T00:00:00Z")],
     PyVal.dict [("location", PyVal.str "A"), ("date", PyVal.str "2024-01-01T00:00:00Z")]])])
    = Except.ok (PyVal.str "A") := rfl

example : get_location (PyVal.dict [("lastState", PyVal.int 5)])
    = Except.error "AttributeError" := rfl

/-- `ParcelsAppCoordinator._get_eta_ranges` (coordinator.py lines 44-62):
returns the pair `(eta_days_range, eta_date_range)`. -/
def get_eta_ranges (shipment : PyVal) : Except String (PyVal × PyVal) := do
  let etaRaw ← pyGet shipment "eta" PyVal.none
  let eta := if pyTruthy etaRaw then etaRaw else PyVal.dict []
  let periodRaw ← pyGet eta "period" PyVal.none
  let eta_period := if pyTruthy periodRaw then periodRaw else PyVal.list []
  let remainingRaw ← pyGet eta "remaining" PyVal.none
  let eta_remaining := if pyTruthy remainingRaw then remainingRaw else PyVal.list []
  let lenRemaining ← pyLen eta_remaining
  let eta_days_range ←
    if lenRemaining ≥ 2 then do
      let r0 ← pyIndex eta_remaining 0
      if r0 matches PyVal.none then pure PyVal.none
      else do
        let r1 ← pyIndex eta_remaining 1
        if r1 matches PyVal.none then pure PyVal.none
        else pure (PyVal.str (pyStr r0 ++ "-" ++ pyStr r1))
    else pure PyVal.none
  let lenPeriod ← pyLen eta_period
  let eta_date_range ←
    if lenPeriod ≥ 2 then do
      let p0 ← pyIndex eta_period 0
      if pyTruthy p0 then do
        let p1 ← pyIndex eta_period 1
        if pyTruthy p1 then pure (PyVal.str (pyStr p0 ++ "/" ++ pyStr p1))
        else pure PyVal.none
      else pure PyVal.none
    else pure PyVal.none
  return (eta_days_range, eta_date_range)

/-- The scan loop of `_get_expected_delivery` (lines 66-69): first attribute
whose label `l` equals `"eta"` yields its `val`; `None` if none matches. -/
def expected_delivery_loop : List PyVal → Except String PyVal
  | [] => Except.ok PyVal.none
  | a :: rest => do
    let l ← pyGet a "l" PyVal.none
    if pyEq l (PyVal.str "eta") then pyGet a "val" PyVal.none
    else expected_delivery_loop rest

/-- `ParcelsAppCoordinator._get_expected_delivery` (coordinator.py lines 64-69). -/
def get_expected_delivery (shipment : PyVal) : Except String PyVal := do
  let attrsRaw ← pyGet shipment "attributes" (PyVal.list [])
  let attrs ← pyIter attrsRaw
  expected_delivery_loop attrs

/-- The generator consumed by `next(...)` for `days_in_transit`
(lines 189-196 / 270-277 / 409-416): first attribute whose label `l` equals
`"days_transit"` yields its `val`; the `next` default is `None`. -/
def days_in_transit_loop : List PyVal → Except String PyVal
  | [] => Except.ok PyVal.none
  | a :: rest => do
    let l ← pyGet a "l" PyVal.none
    if pyEq l (PyVal.str "days_transit") then pyGet a "val" PyVal.none
    else days_in_transit_loop rest

/-- The `days_in_transit` extraction as inlined at each merge site. -/
def get_days_in_transit (shipment : PyVal) : Except String PyVal := do
  let attrsRaw ← pyGet shipment "attributes" (PyVal.list [])
  let attrs ← pyIter attrsRaw
  days_in_transit_loop attrs

/-- The canonical per-package record held in `self.tracked_packages`.
A field is `Option.none` when the dict key is absent and `some v` when the
key is present with value `v` (so `some PyVal.none` is a key explicitly set
to Python `None`). These are exactly the keys the coordinator ever writes;
the tracking id itself is the key of the store map, not a record field. -/
structure PackageRecord where
  status : Option PyVal := Option.none
  uuid : Option PyVal := Option.none
  uuid_timestamp : Option PyVal := Option.none
  message : Option PyVal := Option.none
  location : Option PyVal := Option.none
  origin : Option PyVal := Option.none
  destination : Option PyVal := Option.none
  eta_days_range : Option PyVal := Option.none
  eta_date_range : Option PyVal := Option.none
  expected_delivery : Option PyVal := Option.none
  carrier : Option PyVal := Option.none
  days_in_transit : Option PyVal := Option.none
  last_updated : Option PyVal := Option.none
  name : Option PyVal := Option.none
  deriving Repr

/-- The session-pending merge in `track_package` (coordinator.py lines
154-165): `\x7b**existing, "status": "pending", "uuid": ..., "uuid_timestamp":
now, "message": "Tracking initiated", "last_updated": now, "name": name or
existing.get("name")\x7d`. -/
def track_package_pending_merge (existing : PackageRecord) (uuidVal : PyVal)
    (now : Int) (nameArg : PyVal) : PackageRecord :=
  { existing with
    status := Option.some (PyVal.str "pending")
    uuid := Option.some uuidVal
    uuid_timestamp := Option.some (PyVal.int now)
    message := Option.some (PyVal.str "Tracking initiated")
    last_updated := Option.some (PyVal.int now)
    name := Option.some (if pyTruthy nameArg then nameArg
                         else (existing.name).getD PyVal.none) }

/-- The shipment-derived values every shipment merge site computes: the
three helper calls (lines 170-172 / 252-254 / 391-393) followed by the
`.get` calls made while evaluating the dict literal, in source order. -/
structure ShipmentFields where
  status : PyVal
  message : PyVal
  location : PyVal
  origin : PyVal
  destination : PyVal
  eta_days_range : PyVal
  eta_date_range : PyVal
  expected_delivery : PyVal
  carrier : PyVal
  days_in_transit : PyVal
  deriving Repr

/-- Extraction shared verbatim by the three shipment merge sites
(`track_package` lines 170-196, `update_package` lines 252-277,
`_fetch_shipment_data` lines 391-416), in source evaluation order. -/
def shipment_fields (shipment : PyVal) : Except String ShipmentFields := do
  let eta ← get_eta_ranges shipment
  let expected ← get_expected_delivery shipment
  let location ← get_location shipment
  let status ← pyGet shipment "status" (PyVal.str "unknown")
  let ls ← pyGet shipment "lastState" (PyVal.dict [])
  let message ← pyGet ls "status" (PyVal.str "No status available")
  let origin ← pyGet shipment "origin" PyVal.none
  let destination ← pyGet shipment "destination" PyVal.none
  let dc ← pyGet shipment "detectedCarrier" (PyVal.dict [])
  let carrier ← pyGet dc "name" PyVal.none
  let dit ← get_days_in_transit shipment
  return { status := status, message := message, location := location,
           origin := origin, destination := destination,
           eta_days_range := eta.1, eta_date_range := eta.2,
           expected_delivery := expected, carrier := carrier,
           days_in_transit := dit }

/-- The shipment merge in `track_package` (coordinator.py lines 167-200):
spreads the new shipment-derived fields over the existing record, explicitly
setting `uuid` and `uuid_timestamp` to `None`, and `name` to
`name or existing.get("name")`. -/
def track_package_shipment_merge (existing : PackageRecord) (shipment : PyVal)
    (now : Int) (nameArg : PyVal) : Except String PackageRecord :=
  Except.map (fun f => { existing with
    status := Option.some f.status
    uuid := Option.some PyVal.none
    uuid_timestamp := Option.some PyVal.none
    message := Option.some f.message
    location := Option.some f.location
    origin := Option.some f.origin
    destination := Option.some f.destination
    eta_days_range := Option.some f.eta_days_range
    eta_date_range := Option.some f.eta_date_range
    expected_delivery := Option.some f.expected_delivery
    carrier := Option.some f.carrier
    days_in_transit := Option.some f.days_in_transit
    last_updated := Option.some (PyVal.int now)
    name := Option.some (if pyTruthy nameArg then nameArg
                         else (existing.name).getD PyVal.none) })
    (shipment_fields shipment)

/-- The shipment merge in `update_package` (coordinator.py lines 256-280):
spreads the new shipment-derived fields over the existing record; note it
does NOT write `uuid`, `uuid_timestamp` or `name`, so those keep their
existing values via the spread. -/
def update_package_merge (existing : PackageRecord) (shipment : PyVal)
    (now : Int) : Except String PackageRecord :=
  Except.map (fun f => { existing with
    status := Option.some f.status
    message := Option.some f.message
    location := Option.some f.location
    origin := Option.some f.origin
    destination := Option.some f.destination
    eta_days_range := Option.some f.eta_days_range
    eta_date_range := Option.some f.eta_date_range
    expected_delivery := Option.some f.expected_delivery
    carrier := Option.some f.carrier
    days_in_transit := Option.some f.days_in_transit
    last_updated := Option.some (PyVal.int now) })
    (shipment_fields shipment)

/-- The shipment merge in `_fetch_shipment_data` (coordinator.py lines
395-419): textually identical field set to the `update_package` merge —
it also leaves `uuid`, `uuid_timestamp` and `name` to the spread. -/
def fetch_shipment_data_merge (existing : PackageRecord) (shipment : PyVal)
    (now : Int) : Except String PackageRecord :=
  Except.map (fun f => { existing with
    status := Option.some f.status
    message := Option.some f.message
    location := Option.some f.location
    origin := Option.some f.origin
    destination := Option.some f.destination
    eta_days_range := Option.some f.eta_days_range
    eta_date_range := Option.some f.eta_date_range
    expected_delivery := Option.some f.expected_delivery
    carrier := Option.some f.carrier
    days_in_transit := Option.some f.days_in_transit
    last_updated := Option.some (PyVal.int now) })
    (shipment_fields shipment)

/-- The in-memory `self.tracked_packages` map, keyed by tracking id. -/
abbrev Store := List (String × PackageRecord)

/-- `self.tracked_packages.get(tid)`. -/
def storeLookup (store : Store) (k : String) : Option PackageRecord :=
  match List.find? (fun p => p.1 == k) store with
  | Option.some p => Option.some p.2
  | Option.none => Option.none

/-- `self.tracked_packages[tid] = record`: replace in place if the key
exists, else append (Python dict assignment preserves insertion order). -/
def storeInsert (store : Store) (k : String) (v : PackageRecord) : Store :=
  match store with
  | [] => [(k, v)]
  | p :: rest =>
    if p.1 == k then (k, v) :: rest else p :: storeInsert rest k v

/-- `v["key"]` for a string key: dict lookup raising `KeyError` when the key
is missing; lists and strings raise `TypeError` (non-integer index); other
values raise `TypeError` (not subscriptable). -/
def pyIndexKey (v : PyVal) (k : String) : Except String PyVal :=
  match v with
  | PyVal.dict fs =>
    match dictLookup fs k with
    | Option.some x => Except.ok x
    | Option.none => Except.error "KeyError"
  | _ => Except.error "TypeError"

/-- Outcome of the HTTP POST + `json.loads` in `track_package` /
`get_new_uuid`: a decoded body, a caught `aiohttp.ClientError` (transport or
non-2xx), or a caught `json.JSONDecodeError`. -/
inductive ApiResult where
  | ok (data : PyVal)
  | clientError
  | jsonError

/-- `ParcelsAppCoordinator.track_package` (coordinator.py lines 127-219) as a
state transformer on the store. Returns the new store and whether the event
was handled by logging a recoverable error (`_LOGGER.error` + no merge).
`Except.error` models an exception the method does not catch (its `except`
clauses cover only `aiohttp.ClientError` and `json.JSONDecodeError`).
Persistence (`_save_tracked_packages`) is outside the model. -/
def track_package_step (store : Store) (tid : String) (nameArg : PyVal)
    (resp : ApiResult) (now : Int) : Except String (Store × Bool) :=
  match resp with
  | ApiResult.clientError => Except.ok (store, true)
  | ApiResult.jsonError => Except.ok (store, true)
  | ApiResult.ok data => do
    let hasUuid ← pyContains data (PyVal.str "uuid")
    if hasUuid then do
      let uuidVal ← pyIndexKey data "uuid"
      let existing := (storeLookup store tid).getD {}
      Except.ok (storeInsert store tid
        (track_package_pending_merge existing uuidVal now nameArg), false)
    else do
      let hasShipments ← pyContains data (PyVal.str "shipments")
      if hasShipments then do
        let shipments ← pyIndexKey data "shipments"
        if pyTruthy shipments then do
          let shipment ← pyIndex shipments 0
          let existing := (storeLookup store tid).getD {}
          let merged ← track_package_shipment_merge existing shipment now nameArg
          Except.ok (storeInsert store tid merged, false)
        else Except.ok (store, true)
      else Except.ok (store, true)

/-- The UUID-expiry test in `update_package` (coordinator.py lines 238-245):
`uuid_expired` is true when a timestamp is stored and
`now - uuid_timestamp > timedelta(minutes=30)` (strict), or when no
timestamp is stored (datetimes are always truthy, so `if uuid_timestamp:`
is a `None` test). Times are in seconds. -/
def uuid_expired_check (now : Int) (uuid_timestamp : Option Int) : Bool :=
  match uuid_timestamp with
  | Option.some ts => decide (now - ts > 1800)
  | Option.none => true

/-- The re-submission gate in `update_package` (coordinator.py line 247):
`if uuid_expired or not uuid:` — when true the coordinator re-submits the
original tracking request via `get_new_uuid`; when false it reuses the
stored token and proceeds to `_fetch_shipment_data`. `not uuid` is Python
falsiness of a `str | None`. -/
def should_resubmit (now : Int) (uuid : Option String)
    (uuid_timestamp : Option Int) : Bool :=
  uuid_expired_check now uuid_timestamp ||
    !(match uuid with
      | Option.some s => s != ""
      | Option.none => false)

/-- The skip test in `update_tracked_packages` (coordinator.py line 302):
`package_data.get("status") not in ["delivered", "archived"]` — this is the
(negated) membership test; `status_excluded` is true exactly when the
record's status is the string `"delivered"` or `"archived"`. -/
def status_excluded (r : PackageRecord) : Bool :=
  [PyVal.str "delivered", PyVal.str "archived"].any
    (fun x => pyEq ((r.status).getD PyVal.none) x)

/-- `ParcelsAppCoordinator.update_tracked_packages` (coordinator.py lines
299-307): iterate the store; for each record whose status is not delivered
or archived, run `update_package` (abstracted as `upd`, since its effect
depends on the network; it only rewrites the entry of its own tracking id).
Returns the new store and the list of tracking ids for which an update
(hence a fetch) was attempted, in iteration order. -/
def update_tracked_packages (upd : String → PackageRecord → PackageRecord) :
    Store → Store × List String
  | [] => ([], [])
  | (k, r) :: rest =>
    if status_excluded r then
      ((k, r) :: (update_tracked_packages upd rest).1,
       (update_tracked_packages upd rest).2)
    else
      ((k, upd k r) :: (update_tracked_packages upd rest).1,
       k :: (update_tracked_packages upd rest).2)

/-! ### Helper predicates and lemmas -/

/-- Is this value a Python dict? -/
def isDict : PyVal → Bool
  | PyVal.dict _ => true
  | _ => false

/-- A state entry that is a dict whose `location` (defaulting to `None`)
is falsy — `_get_location` skips such a state without raising. -/
def dictNoLoc (s : PyVal) : Bool :=
  match s with
  | PyVal.dict gs => !pyTruthy ((dictLookup gs "location").getD PyVal.none)
  | _ => false

/-- A `lastState` value from which `_get_location` extracts no truthy
location and does not raise: either falsy (replaced by `\x7b\x7d`), or a dict
with a falsy `location`. -/
def lastStateNoLoc (v : PyVal) : Bool :=
  if pyTruthy v then
    match v with
    | PyVal.dict gs => !pyTruthy ((dictLookup gs "location").getD PyVal.none)
    | _ => false
  else true

/-- An attribute entry that is a dict whose label `l` is not `"eta"` —
`_get_expected_delivery` skips such an entry without raising. -/
def notEta (s : PyVal) : Bool :=
  match s with
  | PyVal.dict gs => !pyEq ((dictLookup gs "l").getD PyVal.none) (PyVal.str "eta")
  | _ => false

/-- A decoded `track_package` response body on which the method takes its
final `else` branch (lines 202-208), logging and returning without touching
the store: the two Python membership tests `"uuid" in data` /
`"shipments" in data` evaluate without raising and locate neither a
`"uuid"` entry nor a truthy `"shipments"` entry. Covers JSON objects
without those keys (or with a falsy `shipments`), JSON arrays with no
`"uuid"`/`"shipments"` element, and JSON strings with no
`"uuid"`/`"shipments"` substring (each case mirroring the corresponding
`pyContains` branch). Non-iterable bodies are excluded: on those the `in`
test raises. -/
def noop_response (data : PyVal) : Bool :=
  match data with
  | PyVal.dict fs =>
    !(fs.any (fun p => p.1 == "uuid")) &&
      !((fs.any (fun p => p.1 == "shipments")) &&
        pyTruthy ((dictLookup fs "shipments").getD PyVal.none))
  | PyVal.list xs =>
    !(xs.any (fun x => pyEq (PyVal.str "uuid") x)) &&
      !(xs.any (fun x => pyEq (PyVal.str "shipments") x))
  | PyVal.str s =>
    !(("uuid" : String).length == 0 || decide ((s.splitOn "uuid").length ≥ 2)) &&
      !(("shipments" : String).length == 0
        || decide ((s.splitOn "shipments").length ≥ 2))
  | _ => false

theorem get_location_dict (fs : List (String × PyVal)) :
    get_location (PyVal.dict fs) =
      Except.bind
        (pyGet (if pyTruthy ((dictLookup fs "lastState").getD PyVal.none)
                then (dictLookup fs "lastState").getD PyVal.none
                else PyVal.dict []) "location" PyVal.none)
        (fun loc =>
          if pyTruthy loc then Except.ok loc
          else Except.bind
            (pyReversed ((dictLookup fs "states").getD (PyVal.list [])))
            get_location_loop) := rfl

theorem lastStateNoLoc_spec (v : PyVal) (h : lastStateNoLoc v = true) :
    ∃ w, pyGet (if pyTruthy v then v else PyVal.dict []) "location" PyVal.none
          = Except.ok w ∧ pyTruthy w = false := by
  unfold lastStateNoLoc at h
  by_cases ht : pyTruthy v
  · simp only [if_pos ht] at h ⊢
    cases v with
    | dict gs =>
      exact ⟨(dictLookup gs "location").getD PyVal.none, rfl, by simpa using h⟩
    | none => simp [pyTruthy] at ht
    | bool b => simp at h
    | int n => simp at h
    | str s => simp at h
    | list xs => simp at h
  · simp only [if_neg ht] at h ⊢
    exact ⟨PyVal.none, rfl, rfl⟩

theorem get_location_states (fs : List (String × PyVal)) (sts : List PyVal)
    (hls : lastStateNoLoc ((dictLookup fs "lastState").getD PyVal.none) = true)
    (hst : (dictLookup fs "states").getD (PyVal.list []) = PyVal.list sts) :
    get_location (PyVal.dict fs) = get_location_loop sts.reverse := by
  obtain ⟨w, hw, hwf⟩ := lastStateNoLoc_spec _ hls
  rw [get_location_dict fs, hw]
  show (if pyTruthy w then Except.ok w
        else Except.bind (pyReversed ((dictLookup fs "states").getD (PyVal.list [])))
          get_location_loop) = get_location_loop sts.reverse
  rw [hwf, hst]
  rfl

theorem get_location_loop_append (l rest : List PyVal)
    (h : ∀ s ∈ l, dictNoLoc s = true) :
    get_location_loop (l ++ rest) = get_location_loop rest := by
  induction l with
  | nil => rfl
  | cons s t ih =>
    have hs := h s (List.mem_cons_self s t)
    have ht : ∀ x ∈ t, dictNoLoc x = true := fun x hx => h x (List.mem_cons_of_mem _ hx)
    cases s with
    | dict gs =>
      have hloc : pyTruthy ((dictLookup gs "location").getD PyVal.none) = false := by
        simpa [dictNoLoc] using hs
      show (if pyTruthy ((dictLookup gs "location").getD PyVal.none)
            then Except.ok ((dictLookup gs "location").getD PyVal.none)
            else get_location_loop (t ++ rest)) = get_location_loop rest
      rw [hloc]
      simpa using ih ht
    | none => simp [dictNoLoc] at hs
    | bool b => simp [dictNoLoc] at hs
    | int n => simp [dictNoLoc] at hs
    | str s => simp [dictNoLoc] at hs
    | list xs => simp [dictNoLoc] at hs

theorem get_location_loop_noloc (l : List PyVal)
    (h : ∀ s ∈ l, dictNoLoc s = true) :
    get_location_loop l = Except.ok (PyVal.str "undefined") := by
  have := get_location_loop_append l [] h
  simpa using this

theorem get_location_loop_hit (gs : List (String × PyVal)) (rest : List PyVal)
    (v : PyVal) (hv : (dictLookup gs "location").getD PyVal.none = v)
    (ht : pyTruthy v = true) :
    get_location_loop (PyVal.dict gs :: rest) = Except.ok v := by
  show (if pyTruthy ((dictLookup gs "location").getD PyVal.none)
        then Except.ok ((dictLookup gs "location").getD PyVal.none)
        else get_location_loop rest) = Except.ok v
  rw [hv, ht]
  simp

theorem get_location_loop_isOk (l : List PyVal)
    (h : ∀ s ∈ l, isDict s = true) :
    (get_location_loop l).isOk = true := by
  induction l with
  | nil => rfl
  | cons s t ih =>
    have hs := h s (List.mem_cons_self s t)
    have ht : ∀ x ∈ t, isDict x = true := fun x hx => h x (List.mem_cons_of_mem _ hx)
    cases s with
    | dict gs =>
      show ((if pyTruthy ((dictLookup gs "location").getD PyVal.none)
             then Except.ok ((dictLookup gs "location").getD PyVal.none)
             else get_location_loop t) : Except String PyVal).isOk = true
      by_cases hb : pyTruthy ((dictLookup gs "location").getD PyVal.none) = true
      · rw [hb]; simp [Except.isOk, Except.toBool]
      · rw [Bool.eq_false_iff.mpr hb]
        simpa using ih ht
    | none => simp [isDict] at hs
    | bool b => simp [isDict] at hs
    | int n => simp [isDict] at hs
    | str s => simp [isDict] at hs
    | list xs => simp [isDict] at hs

theorem expected_delivery_loop_skip (l rest : List PyVal)
    (h : ∀ s ∈ l, notEta s = true) :
    expected_delivery_loop (l ++ rest) = expected_delivery_loop rest := by
  induction l with
  | nil => rfl
  | cons s t ih =>
    have hs := h s (List.mem_cons_self s t)
    have ht : ∀ x ∈ t, notEta x = true := fun x hx => h x (List.mem_cons_of_mem _ hx)
    cases s with
    | dict gs =>
      have hl : pyEq ((dictLookup gs "l").getD PyVal.none) (PyVal.str "eta") = false := by
        simpa [notEta] using hs
      show (if pyEq ((dictLookup gs "l").getD PyVal.none) (PyVal.str "eta")
            then pyGet (PyVal.dict gs) "val" PyVal.none
            else expected_delivery_loop (t ++ rest)) = expected_delivery_loop rest
      rw [hl]
      simpa using ih ht
    | none => simp [notEta] at hs
    | bool b => simp [notEta] at hs
    | int n => simp [notEta] at hs
    | str s => simp [notEta] at hs
    | list xs => simp [notEta] at hs

theorem expected_delivery_loop_none (l : List PyVal)
    (h : ∀ s ∈ l, notEta s = true) :
    expected_delivery_loop l = Except.ok PyVal.none := by
  have := expected_delivery_loop_skip l [] h
  simpa using this

theorem expected_delivery_loop_hit (gs : List (String × PyVal)) (rest : List PyVal)
    (hl : pyEq ((dictLookup gs "l").getD PyVal.none) (PyVal.str "eta") = true) :
    expected_delivery_loop (PyVal.dict gs :: rest)
      = Except.ok ((dictLookup gs "val").getD PyVal.none) := by
  show (if pyEq ((dictLookup gs "l").getD PyVal.none) (PyVal.str "eta")
        then pyGet (PyVal.dict gs) "val" PyVal.none
        else expected_delivery_loop rest)
      = Except.ok ((dictLookup gs "val").getD PyVal.none)
  rw [hl]
  simp [pyGet]

theorem storeLookup_insert_ne (store : Store) (k k2 : String) (v : PackageRecord)
    (h : k2 ≠ k) : storeLookup (storeInsert store k v) k2 = storeLookup store k2 := by
  have hkk : (k == k2) = false := beq_eq_false_iff_ne.mpr (Ne.symm h)
  induction store with
  | nil =>
    simp [storeInsert, storeLookup, List.find?, hkk]
  | cons p rest ih =>
    by_cases hp : p.1 = k
    · simp [storeInsert, hp, storeLookup, List.find?, hkk,
            beq_eq_false_iff_ne.mpr (hp ▸ Ne.symm h)]
    · simp only [storeInsert, beq_iff_eq, hp, if_false]
      by_cases hp2 : p.1 = k2
      · simp [storeLookup, List.find?, hp2]
      · simp only [storeLookup, List.find?, beq_eq_false_iff_ne.mpr hp2] at ih ⊢
        simpa using ih

theorem storeLookup_of_mem_nodup (store : Store) (k : String) (r : PackageRecord)
    (hnd : (store.map Prod.fst).Nodup) (hm : (k, r) ∈ store) :
    storeLookup store k = Option.some r := by
  induction store with
  | nil => cases hm
  | cons p rest ih =>
    rcases List.mem_cons.mp hm with he | hmt
    · subst he
      simp [storeLookup, List.find?]
    · have hnd2 := hnd
      rw [List.map_cons, List.nodup_cons] at hnd2
      have hk : p.1 ≠ k := by
        intro he
        exact hnd2.1 (he ▸ List.mem_map.mpr ⟨(k, r), hmt, rfl⟩)
      simp only [storeLookup, List.find?, beq_eq_false_iff_ne.mpr hk]
      have := ih hnd2.2 hmt
      simpa [storeLookup] using this

/-! ### Claim C1 -/

/-- C1 counterexample: a shipment whose `states` hold a location dated
2024-05-01 (D1) listed after a location dated 2024-05-02 (D2). The claim
says the resolver returns the D2 location regardless of list order, but
`_get_location` ignores dates entirely and returns the D1 location
(the last list entry with a location). -/
theorem C1_cex :
    get_location (PyVal.dict [("states", PyVal.list
      [PyVal.dict [("location", PyVal.str "late-loc"),
                   ("date", PyVal.str "2024-05-02T10:00:00Z")],
       PyVal.dict [("location", PyVal.str "early-loc"),
                   ("date", PyVal.str "2024-05-01T10:00:00Z")]])])
      = Except.ok (PyVal.str "early-loc")
    ∧ PyVal.str "early-loc" ≠ PyVal.str "late-loc" :=
  ⟨rfl, by simp⟩

/-- C1 (amended): `_get_location` ignores state dates entirely. When
`lastState` yields no truthy location, it returns the location of the last
state in list order whose `location` is truthy (here: the distinguished
state, since every later state lacks a truthy location), regardless of any
`date` fields. -/
theorem C1_location_by_list_order (fs : List (String × PyVal))
    (pre post : List PyVal) (gs : List (String × PyVal)) (v : PyVal)
    (hls : lastStateNoLoc ((dictLookup fs "lastState").getD PyVal.none) = true)
    (hst : (dictLookup fs "states").getD (PyVal.list [])
             = PyVal.list (pre ++ PyVal.dict gs :: post))
    (hv : (dictLookup gs "location").getD PyVal.none = v)
    (htv : pyTruthy v = true)
    (hpost : ∀ s ∈ post, dictNoLoc s = true) :
    get_location (PyVal.dict fs) = Except.ok v := by
  rw [get_location_states fs (pre ++ PyVal.dict gs :: post) hls hst]
  rw [List.reverse_append, List.reverse_cons, List.append_assoc]
  rw [get_location_loop_append post.reverse _
    (fun s hs => hpost s (List.mem_reverse.mp hs))]
  exact get_location_loop_hit gs pre.reverse v hv htv

/-- C1 witness: instantiates `C1_location_by_list_order` on a shipment whose
dated-later state sits earlier in the list. -/
theorem C1_location_by_list_order_witness :
    get_location (PyVal.dict [("states", PyVal.list
      [PyVal.dict [("location", PyVal.str "late-hub"),
                   ("date", PyVal.str "2024-05-02T10:00:00Z")],
       PyVal.dict [("location", PyVal.str "hub-a"),
                   ("date", PyVal.str "2024-05-01T10:00:00Z")],
       PyVal.dict [("date", PyVal.str "2024-05-03T10:00:00Z")]])])
      = Except.ok (PyVal.str "hub-a") :=
  C1_location_by_list_order
    [("states", PyVal.list
      [PyVal.dict [("location", PyVal.str "late-hub"),
                   ("date", PyVal.str "2024-05-02T10:00:00Z")],
       PyVal.dict [("location", PyVal.str "hub-a"),
                   ("date", PyVal.str "2024-05-01T10:00:00Z")],
       PyVal.dict [("date", PyVal.str "2024-05-03T10:00:00Z")]])]
    [PyVal.dict [("location", PyVal.str "late-hub"),
                 ("date", PyVal.str "2024-05-02T10:00:00Z")]]
    [PyVal.dict [("date", PyVal.str "2024-05-03T10:00:00Z")]]
    [("location", PyVal.str "hub-a"), ("date", PyVal.str "2024-05-01T10:00:00Z")]
    (PyVal.str "hub-a")
    rfl rfl rfl rfl
    (by intro s hs; simp only [List.mem_singleton] at hs; subst hs; rfl)

/-! ### Claim C2 -/

/-- C2 counterexample: a shipment with no state location, status
`"delivered"` (a recognized status, case-insensitively) and a present
`destination`. The claim says the resolver returns `destination`
(`"Berlin, Germany"`), but `_get_location` has no status/destination
fallback at all and returns the string `"undefined"`. -/
theorem C2_cex :
    get_location (PyVal.dict [("status", PyVal.str "delivered"),
      ("destination", PyVal.str "Berlin, Germany"),
      ("origin", PyVal.str "Amsterdam, Netherlands"),
      ("states", PyVal.list [])])
      = Except.ok (PyVal.str "undefined")
    ∧ PyVal.str "undefined" ≠ PyVal.str "Berlin, Germany"
    ∧ PyVal.str "undefined" ≠ PyVal.str "Amsterdam, Netherlands" :=
  ⟨rfl, by simp, by simp⟩

/-- C2 (amended): when no state yields a truthy location, `_get_location`
returns the string `"undefined"` — independent of `status`, `destination`
and `origin` (the shipment's other entries, `fs`, are unconstrained), so it
never falls back to `destination` or `origin`. -/
theorem C2_no_location_undefined (fs : List (String × PyVal)) (sts : List PyVal)
    (hls : lastStateNoLoc ((dictLookup fs "lastState").getD PyVal.none) = true)
    (hst : (dictLookup fs "states").getD (PyVal.list []) = PyVal.list sts)
    (hsts : ∀ s ∈ sts, dictNoLoc s = true) :
    get_location (PyVal.dict fs) = Except.ok (PyVal.str "undefined") := by
  rw [get_location_states fs sts hls hst]
  exact get_location_loop_noloc _ (fun s hs => hsts s (List.mem_reverse.mp hs))

/-- C2 witness: instantiates `C2_no_location_undefined` on a delivered
shipment with destination and origin present but no state location. -/
theorem C2_no_location_undefined_witness :
    get_location (PyVal.dict [("status", PyVal.str "delivered"),
      ("destination", PyVal.str "Berlin, Germany"),
      ("origin", PyVal.str "Amsterdam, Netherlands"),
      ("states", PyVal.list [PyVal.dict [("date", PyVal.str "2024-05-01T10:00:00Z")]])])
      = Except.ok (PyVal.str "undefined") :=
  C2_no_location_undefined
    [("status", PyVal.str "delivered"),
     ("destination", PyVal.str "Berlin, Germany"),
     ("origin", PyVal.str "Amsterdam, Netherlands"),
     ("states", PyVal.list [PyVal.dict [("date", PyVal.str "2024-05-01T10:00:00Z")]])]
    [PyVal.dict [("date", PyVal.str "2024-05-01T10:00:00Z")]]
    rfl rfl
    (by intro s hs; simp only [List.mem_singleton] at hs; subst hs; rfl)

/-! ### Claim C3 -/

/-- C3 counterexample: a shipment whose resolved location is the 2-letter
code `"DE"`. The claim says the resolver maps it through a country-code
table to `"Germany"`, but `_get_location` has no such table and returns
`"DE"` unchanged. -/
theorem C3_cex :
    get_location (PyVal.dict [("lastState",
      PyVal.dict [("location", PyVal.str "DE")])])
      = Except.ok (PyVal.str "DE")
    ∧ PyVal.str "DE" ≠ PyVal.str "Germany" :=
  ⟨rfl, by simp⟩

/-- C3 (amended): `_get_location` passes every resolved location value
through unchanged — there is no country-code-to-name table, so 2-letter
codes (mapped or unmapped alike) and non-2-letter strings are all returned
verbatim. Stated for a truthy `lastState.location` value `v`. -/
theorem C3_location_passthrough (fs gs : List (String × PyVal)) (v : PyVal)
    (h1 : dictLookup fs "lastState" = Option.some (PyVal.dict gs))
    (h2 : (dictLookup gs "location").getD PyVal.none = v)
    (h3 : pyTruthy v = true) :
    get_location (PyVal.dict fs) = Except.ok v := by
  have hg : gs ≠ [] := by
    intro he
    subst he
    simp [dictLookup] at h2
    rw [← h2] at h3
    exact absurd h3 (by decide)
  have hgt : pyTruthy (PyVal.dict gs) = true := by
    simp [pyTruthy, hg]
  rw [get_location_dict fs, h1]
  show Except.bind (pyGet (if pyTruthy (PyVal.dict gs) then PyVal.dict gs
        else PyVal.dict []) "location" PyVal.none) _ = Except.ok v
  rw [hgt]
  show (if pyTruthy ((dictLookup gs "location").getD PyVal.none)
        then Except.ok ((dictLookup gs "location").getD PyVal.none)
        else Except.bind (pyReversed ((dictLookup fs "states").getD (PyVal.list [])))
          get_location_loop) = Except.ok v
  rw [h2, h3]
  simp

/-- C3 witness: instantiates `C3_location_passthrough` on the unmapped
2-letter code `"XX"`, which passes through unchanged. -/
theorem C3_location_passthrough_witness :
    get_location (PyVal.dict [("lastState",
      PyVal.dict [("location", PyVal.str "XX")])])
      = Except.ok (PyVal.str "XX") :=
  C3_location_passthrough
    [("lastState", PyVal.dict [("location", PyVal.str "XX")])]
    [("location", PyVal.str "XX")]
    (PyVal.str "XX") rfl rfl rfl

/-! ### Claim C9 -/

/-- C9 counterexample: the claim says `_get_location` never raises, for any
input shipment. But on a shipment whose `lastState` is a truthy non-dict
(here the number 5), `last_state.get("location")` raises `AttributeError`
(`shipment.get("lastState") or \x7b\x7d` keeps truthy non-dicts); likewise a
non-iterable `states` value (here the number 7) raises `TypeError` at
`reversed(...)`. The resolver is therefore not total. -/
theorem C9_cex :
    get_location (PyVal.dict [("lastState", PyVal.int 5)])
      = Except.error "AttributeError"
    ∧ get_location (PyVal.dict [("states", PyVal.int 7)])
      = Except.error "TypeError" :=
  ⟨rfl, rfl⟩

/-- C9 (amended): `_get_location` is total (returns a value, never raises)
on every shipment that is a dict whose `lastState` entry is falsy or a
dict, and whose `states` entry (defaulting to `[]`) is a list of dicts —
missing fields and unparsable dates included, since dates are never
inspected. On inputs outside this shape it can raise (see `C9_cex`). -/
theorem C9_total_on_wellformed (fs : List (String × PyVal)) (sts : List PyVal)
    (hls : pyTruthy ((dictLookup fs "lastState").getD PyVal.none) = false
           ∨ isDict ((dictLookup fs "lastState").getD PyVal.none) = true)
    (hst : (dictLookup fs "states").getD (PyVal.list []) = PyVal.list sts)
    (hsts : ∀ s ∈ sts, isDict s = true) :
    (get_location (PyVal.dict fs)).isOk = true := by
  have hloopOk : (get_location_loop sts.reverse).isOk = true :=
    get_location_loop_isOk _ (fun s hs => hsts s (List.mem_reverse.mp hs))
  rw [get_location_dict fs]
  rcases hls with hf | hd
  · rw [hf, hst]
    show (get_location_loop sts.reverse).isOk = true
    exact hloopOk
  · cases hv : (dictLookup fs "lastState").getD PyVal.none with
    | dict gs =>
      by_cases hg : pyTruthy (PyVal.dict gs) = true
      · rw [hg]
        show ((if pyTruthy ((dictLookup gs "location").getD PyVal.none)
               then Except.ok ((dictLookup gs "location").getD PyVal.none)
               else Except.bind
                 (pyReversed ((dictLookup fs "states").getD (PyVal.list [])))
                 get_location_loop) : Except String PyVal).isOk = true
        by_cases hloc : pyTruthy ((dictLookup gs "location").getD PyVal.none) = true
        · rw [hloc]
          rfl
        · rw [Bool.not_eq_true] at hloc
          rw [hloc, hst]
          show (get_location_loop sts.reverse).isOk = true
          exact hloopOk
      · rw [Bool.not_eq_true] at hg
        rw [hg, hst]
        show (get_location_loop sts.reverse).isOk = true
        exact hloopOk
    | none => rw [hv] at hd; simp [isDict] at hd
    | bool b => rw [hv] at hd; simp [isDict] at hd
    | int n => rw [hv] at hd; simp [isDict] at hd
    | str s => rw [hv] at hd; simp [isDict] at hd
    | list xs => rw [hv] at hd; simp [isDict] at hd

/-- C9 witness: instantiates `C9_total_on_wellformed` on a shipment with an
unparsable state date, a missing `lastState` and a location-free state. -/
theorem C9_total_on_wellformed_witness :
    (get_location (PyVal.dict [("status", PyVal.str "in_transit"),
      ("states", PyVal.list
        [PyVal.dict [("location", PyVal.str "Hub"), ("date", PyVal.str "not-a-date")],
         PyVal.dict [("date", PyVal.str "also-not-a-date")]])])).isOk = true :=
  C9_total_on_wellformed
    [("status", PyVal.str "in_transit"),
     ("states", PyVal.list
       [PyVal.dict [("location", PyVal.str "Hub"), ("date", PyVal.str "not-a-date")],
        PyVal.dict [("date", PyVal.str "also-not-a-date")]])]
    [PyVal.dict [("location", PyVal.str "Hub"), ("date", PyVal.str "not-a-date")],
     PyVal.dict [("date", PyVal.str "also-not-a-date")]]
    (Or.inl rfl) rfl
    (by intro s hs
        simp only [List.mem_cons, List.not_mem_nil, or_false] at hs
        rcases hs with h | h <;> subst h <;> rfl)

/-! ### Claim C8 -/

/-- C8 counterexample: with two attributes labelled `"eta"`, the claim says
the last one wins (`"second-window"`), but `_get_expected_delivery` returns
on the FIRST match (`"first-window"`) — the loop short-circuits with
`return` inside the `for`. -/
theorem C8_cex :
    get_expected_delivery (PyVal.dict [("attributes", PyVal.list
      [PyVal.dict [("l", PyVal.str "eta"), ("val", PyVal.str "first-window")],
       PyVal.dict [("l", PyVal.str "eta"), ("val", PyVal.str "second-window")]])])
      = Except.ok (PyVal.str "first-window")
    ∧ PyVal.str "first-window" ≠ PyVal.str "second-window" :=
  ⟨rfl, by simp⟩

/-- C8 (amended): `expectedDelivery` is the `val` of the FIRST attribute in
scan order whose label `l` equals `"eta"` (the loop returns on the first
match); with no matching attribute (or no `attributes` key) the result is
`None` (absent). -/
theorem C8_expected_delivery_first_match :
    (∀ (fs : List (String × PyVal)) (pre post : List PyVal)
       (ga : List (String × PyVal)),
       (dictLookup fs "attributes").getD (PyVal.list [])
           = PyVal.list (pre ++ PyVal.dict ga :: post) →
       (∀ s ∈ pre, notEta s = true) →
       pyEq ((dictLookup ga "l").getD PyVal.none) (PyVal.str "eta") = true →
       get_expected_delivery (PyVal.dict fs)
         = Except.ok ((dictLookup ga "val").getD PyVal.none))
    ∧ (∀ (fs : List (String × PyVal)) (sts : List PyVal),
       (dictLookup fs "attributes").getD (PyVal.list []) = PyVal.list sts →
       (∀ s ∈ sts, notEta s = true) →
       get_expected_delivery (PyVal.dict fs) = Except.ok PyVal.none) := by
  constructor
  · intro fs pre post ga hattr hpre hl
    show Except.bind (Except.ok ((dictLookup fs "attributes").getD (PyVal.list [])))
      (fun attrsRaw => Except.bind (pyIter attrsRaw) expected_delivery_loop)
      = Except.ok ((dictLookup ga "val").getD PyVal.none)
    rw [hattr]
    show expected_delivery_loop (pre ++ PyVal.dict ga :: post)
      = Except.ok ((dictLookup ga "val").getD PyVal.none)
    rw [expected_delivery_loop_skip pre _ hpre]
    exact expected_delivery_loop_hit ga post hl
  · intro fs sts hattr hall
    show Except.bind (Except.ok ((dictLookup fs "attributes").getD (PyVal.list [])))
      (fun attrsRaw => Except.bind (pyIter attrsRaw) expected_delivery_loop)
      = Except.ok PyVal.none
    rw [hattr]
    show expected_delivery_loop sts = Except.ok PyVal.none
    exact expected_delivery_loop_none sts hall

/-- C8 witness: instantiates both conjuncts of
`C8_expected_delivery_first_match`: the first `"eta"` attribute (after a
non-`"eta"` one) wins, and a shipment with no `"eta"` attribute yields
`None`. -/
theorem C8_expected_delivery_first_match_witness :
    get_expected_delivery (PyVal.dict [("attributes", PyVal.list
      [PyVal.dict [("l", PyVal.str "days_transit"), ("val", PyVal.int 4)],
       PyVal.dict [("l", PyVal.str "eta"), ("val", PyVal.str "May 3 - May 5")],
       PyVal.dict [("l", PyVal.str "eta"), ("val", PyVal.str "May 9")]])])
      = Except.ok (PyVal.str "May 3 - May 5")
    ∧ get_expected_delivery (PyVal.dict [("status", PyVal.str "in_transit")])
      = Except.ok PyVal.none :=
  ⟨C8_expected_delivery_first_match.1
    [("attributes", PyVal.list
      [PyVal.dict [("l", PyVal.str "days_transit"), ("val", PyVal.int 4)],
       PyVal.dict [("l", PyVal.str "eta"), ("val", PyVal.str "May 3 - May 5")],
       PyVal.dict [("l", PyVal.str "eta"), ("val", PyVal.str "May 9")]])]
    [PyVal.dict [("l", PyVal.str "days_transit"), ("val", PyVal.int 4)]]
    [PyVal.dict [("l", PyVal.str "eta"), ("val", PyVal.str "May 9")]]
    [("l", PyVal.str "eta"), ("val", PyVal.str "May 3 - May 5")]
    rfl
    (by intro s hs
        simp only [List.mem_cons, List.not_mem_nil, or_false] at hs
        subst hs; rfl)
    rfl,
   C8_expected_delivery_first_match.2
    [("status", PyVal.str "in_transit")] [] rfl
    (by intro s hs; exact absurd hs (List.not_mem_nil s))⟩

/-! ### Claim C5 -/

/-- C5: with a stored (non-empty) token issued at time `ts`, a poll at
`now ≤ ts + 1800` seconds (exactly 30 minutes included) does not re-submit
(the token is reused and flows to `_fetch_shipment_data`); a poll at
`now > ts + 1800` re-submits, as does any poll with no token stored; in
particular polls at T+29min (1740 s) reuse and at T+31min (1860 s)
re-submit. -/
theorem C5_uuid_reuse_boundary :
    (∀ (now ts : Int) (u : String), u ≠ "" → now - ts ≤ 1800 →
        should_resubmit now (Option.some u) (Option.some ts) = false)
    ∧ (∀ (now ts : Int) (u : String), now - ts > 1800 →
        should_resubmit now (Option.some u) (Option.some ts) = true)
    ∧ (∀ (now : Int) (ts : Option Int),
        should_resubmit now Option.none ts = true)
    ∧ should_resubmit 1740 (Option.some "token-a") (Option.some 0) = false
    ∧ should_resubmit 1860 (Option.some "token-a") (Option.some 0) = true := by
  refine ⟨?_, ?_, ?_, rfl, rfl⟩
  · intro now ts u hu hle
    have h1 : decide (now - ts > 1800) = false := by
      simp only [decide_eq_false_iff_not]
      omega
    have h2 : (u != "") = true := bne_iff_ne.mpr hu
    simp [should_resubmit, uuid_expired_check, h1, h2]
  · intro now ts u hgt
    have h1 : decide (now - ts > 1800) = true := decide_eq_true hgt
    simp [should_resubmit, uuid_expired_check, h1]
  · intro now ts
    simp [should_resubmit, uuid_expired_check]

/-- C5 witness: instantiates `C5_uuid_reuse_boundary` at the exact 30-minute
boundary (1800 s: reuse), one second past it (1801 s: re-submit), and the
token-absent case. -/
theorem C5_uuid_reuse_boundary_witness :
    should_resubmit 1800 (Option.some "token-b") (Option.some 0) = false
    ∧ should_resubmit 1801 (Option.some "token-b") (Option.some 0) = true
    ∧ should_resubmit 0 Option.none (Option.some 0) = true :=
  ⟨C5_uuid_reuse_boundary.1 1800 0 "token-b" (by decide) (by norm_num),
   C5_uuid_reuse_boundary.2.1 1801 0 "token-b" (by norm_num),
   C5_uuid_reuse_boundary.2.2.1 0 (Option.some 0)⟩

/-! ### Claim C4 -/

/-- An existing record holding a stale session token pair, as left behind by
a pending merge whose token has expired. -/
def stale_token_record : PackageRecord :=
  { status := Option.some (PyVal.str "pending"),
    uuid := Option.some (PyVal.str "stale-token"),
    uuid_timestamp := Option.some (PyVal.int 100),
    name := Option.some (PyVal.str "My parcel") }

/-- A well-formed resolved shipment payload. -/
def resolved_shipment : PyVal :=
  PyVal.dict [("status", PyVal.str "in_transit"),
    ("origin", PyVal.str "Amsterdam"),
    ("destination", PyVal.str "Berlin"),
    ("lastState", PyVal.dict [("status", PyVal.str "Departed hub"),
                              ("location", PyVal.str "Hub-1")])]

/-- C4 counterexample: merging a shipment payload through the
`update_package` merge (lines 256-282) over a record holding a stale
session token does NOT clear the token: the result simultaneously holds the
stale `uuid`/`uuid_timestamp` pair (neither removed nor set to `None`) and
the freshly merged `status`. The claim says every shipment-payload merge
clears the stale token. -/
theorem C4_cex :
    (update_package_merge stale_token_record resolved_shipment 500).map
        (fun r => (r.uuid, r.uuid_timestamp, r.status))
      = Except.ok (Option.some (PyVal.str "stale-token"),
                   Option.some (PyVal.int 100),
                   Option.some (PyVal.str "in_transit"))
    ∧ Option.some (PyVal.str "stale-token") ≠ Option.some PyVal.none
    ∧ Option.some (PyVal.str "stale-token") ≠ (Option.none : Option PyVal) :=
  ⟨rfl, by simp, by simp⟩

/-- C4 (amended): only the `track_package` shipment merge clears the session
token (it writes `uuid = None`, `uuid_timestamp = None`); the shipment
merges in `update_package` and `_fetch_shipment_data` leave the existing
record's `uuid` and `uuid_timestamp` values in place unchanged, so a stale
token can coexist with freshly merged shipment fields after those merges. -/
theorem C4_token_clearing_by_site :
    (∀ (ex : PackageRecord) (sh : PyVal) (now : Int) (nm : PyVal)
       (r : PackageRecord),
       track_package_shipment_merge ex sh now nm = Except.ok r →
       r.uuid = Option.some PyVal.none
       ∧ r.uuid_timestamp = Option.some PyVal.none)
    ∧ (∀ (ex : PackageRecord) (sh : PyVal) (now : Int) (r : PackageRecord),
       update_package_merge ex sh now = Except.ok r →
       r.uuid = ex.uuid ∧ r.uuid_timestamp = ex.uuid_timestamp)
    ∧ (∀ (ex : PackageRecord) (sh : PyVal) (now : Int) (r : PackageRecord),
       fetch_shipment_data_merge ex sh now = Except.ok r →
       r.uuid = ex.uuid ∧ r.uuid_timestamp = ex.uuid_timestamp) := by
  refine ⟨?_, ?_, ?_⟩
  · intro ex sh now nm r h
    cases hsf : shipment_fields sh with
    | error e =>
      rw [track_package_shipment_merge, hsf] at h
      exact Except.noConfusion h
    | ok f =>
      rw [track_package_shipment_merge, hsf] at h
      simp only [Except.map] at h
      injection h with h2
      rw [← h2]
      exact ⟨rfl, rfl⟩
  · intro ex sh now r h
    cases hsf : shipment_fields sh with
    | error e =>
      rw [update_package_merge, hsf] at h
      exact Except.noConfusion h
    | ok f =>
      rw [update_package_merge, hsf] at h
      simp only [Except.map] at h
      injection h with h2
      rw [← h2]
      exact ⟨rfl, rfl⟩
  · intro ex sh now r h
    cases hsf : shipment_fields sh with
    | error e =>
      rw [fetch_shipment_data_merge, hsf] at h
      exact Except.noConfusion h
    | ok f =>
      rw [fetch_shipment_data_merge, hsf] at h
      simp only [Except.map] at h
      injection h with h2
      rw [← h2]
      exact ⟨rfl, rfl⟩

/-- The record produced by the `update_package` merge on the examples. -/
def merged_upd_example : PackageRecord :=
  ((update_package_merge stale_token_record resolved_shipment 500).toOption).getD {}

/-- The record produced by the `track_package` shipment merge on the examples. -/
def merged_track_example : PackageRecord :=
  ((track_package_shipment_merge stale_token_record resolved_shipment 500
      PyVal.none).toOption).getD {}

/-- The record produced by the `_fetch_shipment_data` merge on the examples. -/
def merged_fetch_example : PackageRecord :=
  ((fetch_shipment_data_merge stale_token_record resolved_shipment 500).toOption).getD {}

/-- C4 witness: instantiates all three conjuncts of
`C4_token_clearing_by_site` on concrete records. -/
theorem C4_token_clearing_by_site_witness :
    merged_track_example.uuid = Option.some PyVal.none
    ∧ merged_upd_example.uuid = stale_token_record.uuid
    ∧ merged_fetch_example.uuid_timestamp = stale_token_record.uuid_timestamp :=
  ⟨(C4_token_clearing_by_site.1 stale_token_record resolved_shipment 500
      PyVal.none merged_track_example rfl).1,
   (C4_token_clearing_by_site.2.1 stale_token_record resolved_shipment 500
      merged_upd_example rfl).1,
   (C4_token_clearing_by_site.2.2 stale_token_record resolved_shipment 500
      merged_fetch_example rfl).2⟩

/-! ### Claim C6 -/

theorem except_ok_bind {α β : Type} (a : α) (f : α → Except String β) :
    (Except.ok a : Except String α) >>= f = f a := rfl

theorem except_error_bind {α β : Type} (e : String) (f : α → Except String β) :
    (Except.error e : Except String α) >>= f = Except.error e := rfl

theorem dictLookup_isSome_of_any (fs : List (String × PyVal)) (k : String)
    (h : fs.any (fun p => p.1 == k) = true) :
    ∃ v, dictLookup fs k = Option.some v := by
  unfold dictLookup
  rcases hf : fs.find? (fun p => p.1 == k) with _ | p
  · rw [List.find?_eq_none] at hf
    rw [List.any_eq_true] at h
    obtain ⟨x, hx, hpx⟩ := h
    exact absurd hpx (by simpa using hf x hx)
  · rw [hf]
    exact ⟨p.2, rfl⟩

/-- C6: merges never null out fields they do not carry. (a) The pending
merge leaves every field outside its payload (`location`, `origin`,
`destination`, the three ETA fields, `carrier`, `days_in_transit`)
untouched; (b,c) the `update_package` and `_fetch_shipment_data` merges
leave `name`, `uuid` and `uuid_timestamp` untouched; (d,e) in the two
`track_package` merges, a `name` already set to a non-null value is never
overwritten with null (`name or existing.get("name")`); (f) a
`track_package` call touches no store key other than its own tracking id,
so no other record (keyed by its tracking id) is ever erased or changed. -/
theorem C6_merge_frame :
    (∀ (ex : PackageRecord) (uv : PyVal) (now : Int) (nm : PyVal),
       (track_package_pending_merge ex uv now nm).location = ex.location
       ∧ (track_package_pending_merge ex uv now nm).origin = ex.origin
       ∧ (track_package_pending_merge ex uv now nm).destination = ex.destination
       ∧ (track_package_pending_merge ex uv now nm).eta_days_range = ex.eta_days_range
       ∧ (track_package_pending_merge ex uv now nm).eta_date_range = ex.eta_date_range
       ∧ (track_package_pending_merge ex uv now nm).expected_delivery = ex.expected_delivery
       ∧ (track_package_pending_merge ex uv now nm).carrier = ex.carrier
       ∧ (track_package_pending_merge ex uv now nm).days_in_transit = ex.days_in_transit)
    ∧ (∀ (ex : PackageRecord) (sh : PyVal) (now : Int) (r : PackageRecord),
       update_package_merge ex sh now = Except.ok r →
       r.name = ex.name ∧ r.uuid = ex.uuid ∧ r.uuid_timestamp = ex.uuid_timestamp)
    ∧ (∀ (ex : PackageRecord) (sh : PyVal) (now : Int) (r : PackageRecord),
       fetch_shipment_data_merge ex sh now = Except.ok r →
       r.name = ex.name ∧ r.uuid = ex.uuid ∧ r.uuid_timestamp = ex.uuid_timestamp)
    ∧ (∀ (ex : PackageRecord) (uv : PyVal) (now : Int) (nm : PyVal) (v : PyVal),
       ex.name = Option.some v → v ≠ PyVal.none →
       ∃ w, (track_package_pending_merge ex uv now nm).name = Option.some w
            ∧ w ≠ PyVal.none)
    ∧ (∀ (ex : PackageRecord) (sh : PyVal) (now : Int) (nm : PyVal)
         (r : PackageRecord) (v : PyVal),
       track_package_shipment_merge ex sh now nm = Except.ok r →
       ex.name = Option.some v → v ≠ PyVal.none →
       ∃ w, r.name = Option.some w ∧ w ≠ PyVal.none)
    ∧ (∀ (store : Store) (tid : String) (nm : PyVal) (resp : ApiResult)
         (now : Int) (out : Store × Bool),
       track_package_step store tid nm resp now = Except.ok out →
       ∀ k, k ≠ tid → storeLookup out.1 k = storeLookup store k) := by
  have hname : ∀ (ex : PackageRecord) (nm v : PyVal), ex.name = Option.some v →
      v ≠ PyVal.none →
      ∃ w, Option.some (if pyTruthy nm then nm else (ex.name).getD PyVal.none)
             = Option.some w ∧ w ≠ PyVal.none := by
    intro ex nm v hv hvn
    by_cases ht : pyTruthy nm = true
    · refine ⟨nm, by simp [ht], ?_⟩
      intro he
      rw [he] at ht
      exact absurd ht (by decide)
    · rw [Bool.not_eq_true] at ht
      exact ⟨v, by simp [ht, hv], hvn⟩
  refine ⟨?_, ?_, ?_, ?_, ?_, ?_⟩
  · intro ex uv now nm
    exact ⟨rfl, rfl, rfl, rfl, rfl, rfl, rfl, rfl⟩
  · intro ex sh now r h
    cases hsf : shipment_fields sh with
    | error e =>
      rw [update_package_merge, hsf] at h
      exact Except.noConfusion h
    | ok f =>
      rw [update_package_merge, hsf] at h
      simp only [Except.map] at h
      injection h with h2
      rw [← h2]
      exact ⟨rfl, rfl, rfl⟩
  · intro ex sh now r h
    cases hsf : shipment_fields sh with
    | error e =>
      rw [fetch_shipment_data_merge, hsf] at h
      exact Except.noConfusion h
    | ok f =>
      rw [fetch_shipment_data_merge, hsf] at h
      simp only [Except.map] at h
      injection h with h2
      rw [← h2]
      exact ⟨rfl, rfl, rfl⟩
  · intro ex uv now nm v hv hvn
    exact hname ex nm v hv hvn
  · intro ex sh now nm r v h hv hvn
    cases hsf : shipment_fields sh with
    | error e =>
      rw [track_package_shipment_merge, hsf] at h
      exact Except.noConfusion h
    | ok f =>
      rw [track_package_shipment_merge, hsf] at h
      simp only [Except.map] at h
      injection h with h2
      rw [← h2]
      exact hname ex nm v hv hvn
  · intro store tid nm resp now out h k hk
    cases resp with
    | clientError =>
      simp only [track_package_step] at h
      injection h with h2
      rw [← h2]
    | jsonError =>
      simp only [track_package_step] at h
      injection h with h2
      rw [← h2]
    | ok data =>
      simp only [track_package_step] at h
      cases hc : pyContains data (PyVal.str "uuid") with
      | error e =>
        rw [hc, except_error_bind] at h
        exact Except.noConfusion h
      | ok b =>
        rw [hc] at h
        simp only [except_ok_bind] at h
        cases b with
        | true =>
          simp only [if_true] at h
          cases hik : pyIndexKey data "uuid" with
          | error e =>
            rw [hik, except_error_bind] at h
            exact Except.noConfusion h
          | ok uv =>
            rw [hik] at h
            simp only [except_ok_bind] at h
            injection h with h2
            rw [← h2]
            exact storeLookup_insert_ne store tid k _ hk
        | false =>
          simp only [Bool.false_eq_true, if_false] at h
          cases hcs : pyContains data (PyVal.str "shipments") with
          | error e =>
            rw [hcs, except_error_bind] at h
            exact Except.noConfusion h
          | ok b2 =>
            rw [hcs] at h
            simp only [except_ok_bind] at h
            cases b2 with
            | false =>
              simp only [Bool.false_eq_true, if_false] at h
              injection h with h2
              rw [← h2]
            | true =>
              simp only [if_true] at h
              cases hik : pyIndexKey data "shipments" with
              | error e =>
                rw [hik, except_error_bind] at h
                exact Except.noConfusion h
              | ok shl =>
                rw [hik] at h
                simp only [except_ok_bind] at h
                by_cases hts : pyTruthy shl = true
                · rw [hts] at h
                  simp only [if_true] at h
                  cases hi0 : pyIndex shl 0 with
                  | error e =>
                    rw [hi0, except_error_bind] at h
                    exact Except.noConfusion h
                  | ok sh0 =>
                    rw [hi0] at h
                    simp only [except_ok_bind] at h
                    cases hm : track_package_shipment_merge
                        ((storeLookup store tid).getD {}) sh0 now nm with
                    | error e =>
                      rw [hm, except_error_bind] at h
                      exact Except.noConfusion h
                    | ok merged =>
                      rw [hm] at h
                      simp only [except_ok_bind] at h
                      injection h with h2
                      rw [← h2]
                      exact storeLookup_insert_ne store tid k _ hk
                · rw [Bool.not_eq_true] at hts
                  rw [hts] at h
                  simp only [Bool.false_eq_true, if_false] at h
                  injection h with h2
                  rw [← h2]

/-- A second, already-delivered record for store-level examples. -/
def delivered_record : PackageRecord :=
  { status := Option.some (PyVal.str "delivered"),
    name := Option.some (PyVal.str "Old parcel"),
    location := Option.some (PyVal.str "Berlin") }

/-- A store with two tracked packages. -/
def two_package_store : Store :=
  [("PKG-1", stale_token_record), ("PKG-2", delivered_record)]

/-- The store/flag pair produced by a `track_package` call on `PKG-1` whose
response carries a fresh session token. -/
def step_out_example : Store × Bool :=
  ((track_package_step two_package_store "PKG-1" PyVal.none
      (ApiResult.ok (PyVal.dict [("uuid", PyVal.str "fresh-token")])) 900).toOption).getD
    ([], false)

/-- C6 witness: instantiates every conjunct of `C6_merge_frame` on concrete
records, shipments and a concrete two-package store. -/
theorem C6_merge_frame_witness :
    (track_package_pending_merge stale_token_record (PyVal.str "tok") 7
        PyVal.none).location = stale_token_record.location
    ∧ merged_upd_example.name = stale_token_record.name
    ∧ merged_fetch_example.name = stale_token_record.name
    ∧ (∃ w, (track_package_pending_merge stale_token_record (PyVal.str "tok") 7
        PyVal.none).name = Option.some w ∧ w ≠ PyVal.none)
    ∧ (∃ w, merged_track_example.name = Option.some w ∧ w ≠ PyVal.none)
    ∧ storeLookup step_out_example.1 "PKG-2" = storeLookup two_package_store "PKG-2" :=
  ⟨(C6_merge_frame.1 stale_token_record (PyVal.str "tok") 7 PyVal.none).1,
   (C6_merge_frame.2.1 stale_token_record resolved_shipment 500
      merged_upd_example rfl).1,
   (C6_merge_frame.2.2.1 stale_token_record resolved_shipment 500
      merged_fetch_example rfl).1,
   C6_merge_frame.2.2.2.1 stale_token_record (PyVal.str "tok") 7 PyVal.none
      (PyVal.str "My parcel") rfl (by simp),
   C6_merge_frame.2.2.2.2.1 stale_token_record resolved_shipment 500 PyVal.none
      merged_track_example (PyVal.str "My parcel") rfl rfl (by simp),
   C6_merge_frame.2.2.2.2.2 two_package_store "PKG-1" PyVal.none
      (ApiResult.ok (PyVal.dict [("uuid", PyVal.str "fresh-token")])) 900
      step_out_example rfl "PKG-2" (by decide)⟩

/-! ### Claim C7 -/

/-- C7 counterexample: the claim quantifies over EVERY API response that is
neither a session token nor a non-empty shipment list, and says the
operation is a no-op with the error reported as recoverable. But a decoded
body that is not a JSON object — here the valid JSON number `5` — makes
`"uuid" in data` raise `TypeError`, which `track_package` does not catch
(its handlers cover only `aiohttp.ClientError` and `json.JSONDecodeError`),
so the error escapes instead of being logged as recoverable. -/
theorem C7_cex :
    track_package_step [] "RR123456789NL" PyVal.none
      (ApiResult.ok (PyVal.int 5)) 0 = Except.error "TypeError" :=
  rfl

/-- C7 (amended): for every caught transport (`aiohttp.ClientError`) or
JSON-parse failure, and for every decoded body whose membership tests
locate neither a `"uuid"` entry nor a truthy `"shipments"` entry (JSON
objects lacking them, and also JSON arrays/strings containing no
`"uuid"`/`"shipments"` element or substring — see `noop_response`),
`track_package` is a no-op: the store (existing record and any stored
token included) is returned unchanged and the event is only logged
(flag `true`); re-running such a no-op after any successful call leaves
its resulting store equal — the no-op merge is idempotent. Not every
response that is neither a token nor a non-empty shipment list is such a
no-op, however: a non-iterable body (any JSON number, boolean or null)
makes `"uuid" in data` raise `TypeError`, which `track_package` does not
catch, so the error escapes instead of being reported as recoverable
(last three conjuncts; concrete instance in `C7_cex`). -/
theorem C7_noop_and_failures :
    (∀ (store : Store) (tid : String) (nm : PyVal) (now : Int) (data : PyVal),
       noop_response data = true →
       track_package_step store tid nm (ApiResult.ok data) now
         = Except.ok (store, true))
    ∧ (∀ (store : Store) (tid : String) (nm : PyVal) (now : Int),
       track_package_step store tid nm ApiResult.clientError now
         = Except.ok (store, true))
    ∧ (∀ (store : Store) (tid : String) (nm : PyVal) (now : Int),
       track_package_step store tid nm ApiResult.jsonError now
         = Except.ok (store, true))
    ∧ (∀ (store : Store) (tid : String) (nm : PyVal) (resp : ApiResult)
         (now : Int) (out : Store × Bool) (nm2 : PyVal) (now2 : Int)
         (data2 : PyVal),
       track_package_step store tid nm resp now = Except.ok out →
       noop_response data2 = true →
       track_package_step out.1 tid nm2 (ApiResult.ok data2) now2
         = Except.ok (out.1, true))
    ∧ (∀ (store : Store) (tid : String) (nm : PyVal) (now : Int) (n : Int),
       track_package_step store tid nm (ApiResult.ok (PyVal.int n)) now
         = Except.error "TypeError")
    ∧ (∀ (store : Store) (tid : String) (nm : PyVal) (now : Int) (b : Bool),
       track_package_step store tid nm (ApiResult.ok (PyVal.bool b)) now
         = Except.error "TypeError")
    ∧ (∀ (store : Store) (tid : String) (nm : PyVal) (now : Int),
       track_package_step store tid nm (ApiResult.ok PyVal.none) now
         = Except.error "TypeError") := by
  have hnoop : ∀ (store : Store) (tid : String) (nm : PyVal) (now : Int)
      (data : PyVal), noop_response data = true →
      track_package_step store tid nm (ApiResult.ok data) now
        = Except.ok (store, true) := by
    intro store tid nm now data hno
    cases data with
    | dict fs =>
      simp only [noop_response, Bool.and_eq_true, Bool.not_eq_true'] at hno
      obtain ⟨h1, h2⟩ := hno
      have hcu : pyContains (PyVal.dict fs) (PyVal.str "uuid") = Except.ok false := by
        simp [pyContains, h1]
      have hcs : pyContains (PyVal.dict fs) (PyVal.str "shipments")
          = Except.ok (fs.any (fun p => p.1 == "shipments")) := rfl
      simp only [track_package_step]
      rw [hcu]
      simp only [except_ok_bind, Bool.false_eq_true, if_false]
      rw [hcs]
      simp only [except_ok_bind]
      cases ha : fs.any (fun p => p.1 == "shipments") with
      | false => simp only [Bool.false_eq_true, if_false]
      | true =>
        rw [ha, Bool.true_and] at h2
        simp only [if_true]
        obtain ⟨v, hv⟩ := dictLookup_isSome_of_any fs "shipments" ha
        have hik : pyIndexKey (PyVal.dict fs) "shipments" = Except.ok v := by
          simp [pyIndexKey, hv]
        rw [hik]
        simp only [except_ok_bind]
        have htv : pyTruthy v = false := by
          rw [hv] at h2
          simpa using h2
        rw [htv]
        simp only [Bool.false_eq_true, if_false]
    | list xs =>
      simp only [noop_response, Bool.and_eq_true, Bool.not_eq_true'] at hno
      obtain ⟨h1, h2⟩ := hno
      have hcu : pyContains (PyVal.list xs) (PyVal.str "uuid") = Except.ok false := by
        simp [pyContains, h1]
      have hcs : pyContains (PyVal.list xs) (PyVal.str "shipments")
          = Except.ok false := by
        simp [pyContains, h2]
      simp only [track_package_step]
      rw [hcu]
      simp only [except_ok_bind, Bool.false_eq_true, if_false]
      rw [hcs]
      simp only [except_ok_bind, Bool.false_eq_true, if_false]
    | str t =>
      simp only [noop_response, Bool.and_eq_true, Bool.not_eq_true'] at hno
      obtain ⟨h1, h2⟩ := hno
      have hcu : pyContains (PyVal.str t) (PyVal.str "uuid") = Except.ok false := by
        simp only [pyContains, h1]
      have hcs : pyContains (PyVal.str t) (PyVal.str "shipments")
          = Except.ok false := by
        simp only [pyContains, h2]
      simp only [track_package_step]
      rw [hcu]
      simp only [except_ok_bind, Bool.false_eq_true, if_false]
      rw [hcs]
      simp only [except_ok_bind, Bool.false_eq_true, if_false]
    | none => simp [noop_response] at hno
    | bool b => simp [noop_response] at hno
    | int n => simp [noop_response] at hno
  refine ⟨hnoop, fun store tid nm now => rfl, fun store tid nm now => rfl, ?_,
          fun store tid nm now n => rfl, fun store tid nm now b => rfl,
          fun store tid nm now => rfl⟩
  intro store tid nm resp now out nm2 now2 data2 hstep hno
  exact hnoop out.1 tid nm2 now2 data2 hno

/-- C7 witness: instantiates `C7_noop_and_failures` on a concrete store with
a malformed-but-object response (empty `shipments` list), a malformed
array response, a transport failure, and a no-op applied after a
successful token merge. -/
theorem C7_noop_and_failures_witness :
    track_package_step two_package_store "PKG-1" PyVal.none
      (ApiResult.ok (PyVal.dict [("shipments", PyVal.list []),
                                 ("error", PyVal.str "not found")])) 50
      = Except.ok (two_package_store, true)
    ∧ track_package_step two_package_store "PKG-1" PyVal.none
        (ApiResult.ok (PyVal.list [PyVal.str "unexpected"])) 50
      = Except.ok (two_package_store, true)
    ∧ track_package_step two_package_store "PKG-1" PyVal.none
        ApiResult.clientError 50 = Except.ok (two_package_store, true)
    ∧ track_package_step step_out_example.1 "PKG-1" PyVal.none
        (ApiResult.ok (PyVal.dict [])) 960 = Except.ok (step_out_example.1, true) :=
  ⟨C7_noop_and_failures.1 two_package_store "PKG-1" PyVal.none 50
     (PyVal.dict [("shipments", PyVal.list []), ("error", PyVal.str "not found")]) rfl,
   C7_noop_and_failures.1 two_package_store "PKG-1" PyVal.none 50
     (PyVal.list [PyVal.str "unexpected"]) rfl,
   C7_noop_and_failures.2.1 two_package_store "PKG-1" PyVal.none 50,
   C7_noop_and_failures.2.2.2.1 two_package_store "PKG-1" PyVal.none
     (ApiResult.ok (PyVal.dict [("uuid", PyVal.str "fresh-token")])) 900
     step_out_example PyVal.none 960 (PyVal.dict []) rfl rfl⟩

/-! ### Claim C10 -/

/-- C10: during a poll cycle (`update_tracked_packages`), every record whose
status is `"delivered"` or `"archived"` is skipped: its entry in the store
is left unchanged (first conjunct), no update/fetch is attempted for it —
its id is not among the updated ids (second conjunct, for stores with
distinct keys) — and every id that IS updated belongs to a record whose
status is not `"delivered"`/`"archived"` (third conjunct). -/
theorem C10_delivered_archived_skipped :
    (∀ (upd : String → PackageRecord → PackageRecord) (store : Store)
       (k : String) (r : PackageRecord),
       storeLookup store k = Option.some r → status_excluded r = true →
       storeLookup (update_tracked_packages upd store).1 k = Option.some r)
    ∧ (∀ (upd : String → PackageRecord → PackageRecord) (store : Store)
         (k : String) (r : PackageRecord),
       (store.map Prod.fst).Nodup →
       storeLookup store k = Option.some r → status_excluded r = true →
       k ∉ (update_tracked_packages upd store).2)
    ∧ (∀ (upd : String → PackageRecord → PackageRecord) (store : Store)
         (k : String),
       k ∈ (update_tracked_packages upd store).2 →
       ∃ r, (k, r) ∈ store ∧ status_excluded r = false) := by
  have hthird : ∀ (upd : String → PackageRecord → PackageRecord) (store : Store)
      (k : String), k ∈ (update_tracked_packages upd store).2 →
      ∃ r, (k, r) ∈ store ∧ status_excluded r = false := by
    intro upd store
    induction store with
    | nil => intro k hk; simp [update_tracked_packages] at hk
    | cons p rest ih =>
      intro k hk
      obtain ⟨a, b⟩ := p
      by_cases hexb : status_excluded b = true
      · rw [update_tracked_packages, if_pos hexb] at hk
        obtain ⟨r, hm, hex⟩ := ih k hk
        exact ⟨r, List.mem_cons_of_mem _ hm, hex⟩
      · rw [update_tracked_packages, if_neg hexb] at hk
        rcases List.mem_cons.mp hk with he | ht
        · subst he
          exact ⟨b, List.mem_cons_self _ _, Bool.eq_false_iff.mpr hexb⟩
        · obtain ⟨r, hm, hex⟩ := ih k ht
          exact ⟨r, List.mem_cons_of_mem _ hm, hex⟩
  have hfirst : ∀ (upd : String → PackageRecord → PackageRecord) (store : Store)
      (k : String) (r : PackageRecord),
      storeLookup store k = Option.some r → status_excluded r = true →
      storeLookup (update_tracked_packages upd store).1 k = Option.some r := by
    intro upd store
    induction store with
    | nil => intro k r hlk _; simp [storeLookup, List.find?] at hlk
    | cons p rest ih =>
      intro k r hlk hex
      obtain ⟨a, b⟩ := p
      by_cases hak : a = k
      · subst hak
        have hbr : b = r := by
          simpa [storeLookup, List.find?] using hlk
        subst hbr
        rw [update_tracked_packages, if_pos (by exact hex)]
        simp [storeLookup, List.find?]
      · have hlk2 : storeLookup rest k = Option.some r := by
          simpa [storeLookup, List.find?, beq_eq_false_iff_ne.mpr hak] using hlk
        have ihr := ih k r hlk2 hex
        by_cases hexb : status_excluded b = true
        · rw [update_tracked_packages, if_pos hexb]
          simpa [storeLookup, List.find?, beq_eq_false_iff_ne.mpr hak] using ihr
        · rw [update_tracked_packages, if_neg hexb]
          simpa [storeLookup, List.find?, beq_eq_false_iff_ne.mpr hak] using ihr
  refine ⟨hfirst, ?_, hthird⟩
  intro upd store k r hnd hlk hex hmem
  obtain ⟨r2, hm2, hex2⟩ := hthird upd store k hmem
  have hl2 := storeLookup_of_mem_nodup store k r2 hnd hm2
  rw [hlk] at hl2
  injection hl2 with he
  subst he
  rw [hex] at hex2
  exact Bool.noConfusion hex2

/-- The per-id update function used in the C10 witness (an arbitrary
stand-in for `update_package`). -/
def upd_ex : String → PackageRecord → PackageRecord :=
  fun _ r => { r with status := Option.some (PyVal.str "polled"),
                      last_updated := Option.some (PyVal.int 999) }

/-- C10 witness: instantiates `C10_delivered_archived_skipped` on a store
holding one pending and one delivered package: the delivered one is left
unchanged and not updated, and the updated id belongs to the pending one. -/
theorem C10_delivered_archived_skipped_witness :
    storeLookup (update_tracked_packages upd_ex two_package_store).1 "PKG-2"
      = Option.some delivered_record
    ∧ "PKG-2" ∉ (update_tracked_packages upd_ex two_package_store).2
    ∧ ∃ r, ("PKG-1", r) ∈ two_package_store ∧ status_excluded r = false :=
  ⟨C10_delivered_archived_skipped.1 upd_ex two_package_store "PKG-2"
     delivered_record rfl rfl,
   C10_delivered_archived_skipped.2.1 upd_ex two_package_store "PKG-2"
     delivered_record (by simp [two_package_store]) rfl rfl,
   C10_delivered_archived_skipped.2.2 upd_ex two_package_store "PKG-1"
     (by simp [update_tracked_packages, two_package_store, upd_ex,
               status_excluded, stale_token_record, delivered_record, pyEq])⟩
